import Mathlib

/-!
Verification of the NFL transaction ingest pipeline
(`src/transaction_scraper.py`, `src/google_sheets_updater.py`, `src/main.py`)
against its natural-language specification.

The Python code is shallowly embedded: regular-expression searches are
modelled by deterministic character-list scanners that reproduce the
backtracking behaviour of the concrete patterns used in the source, the
process clock and the salted string hash of the Python runtime are passed
as explicit parameters, and external collaborators (HTTP transport,
spreadsheet client, file system) are abstracted as explicit inputs.
-/

namespace NflTx

/-- Whitespace class of the Python regex `\s` and of `str.strip`,
restricted to ASCII (the source content is ASCII). -/
def pySpace (c : Char) : Bool :=
  c = ' ' || c = '\t' || c = '\n' || c = '\r' || c = '\x0b' || c = '\x0c'

/-- Digit class of the Python regex `\d`, restricted to ASCII. -/
def pyDigit (c : Char) : Bool :=
  '0' ≤ c && c ≤ '9'

/-- Embeds `str.strip()` on a character list: drop leading and trailing whitespace. -/
def stripList (l : List Char) : List Char :=
  ((l.dropWhile pySpace).reverse.dropWhile pySpace).reverse

/-- Embeds `str.strip()`. -/
def pyStrip (s : String) : String :=
  String.mk (stripList s.data)

/-- Embeds `str.lower()` (ASCII). -/
def pyLower (s : String) : String :=
  String.mk (s.data.map Char.toLower)

/-- Whether `sub` is an initial segment of `l`. -/
def isPrefixList : List Char → List Char → Bool
  | [], _ => true
  | _ :: _, [] => false
  | a :: as, b :: bs => a = b && isPrefixList as bs

/-- The Python `sub in hay` substring test. -/
def hasSubList (sub : List Char) : List Char → Bool
  | [] => sub.isEmpty
  | c :: cs => isPrefixList sub (c :: cs) || hasSubList sub cs

/-- Embeds `str.find(sub)`: index of the leftmost occurrence, `none` for -1. -/
def findSubIdx (sub : List Char) : List Char → Option Nat
  | [] => if sub.isEmpty then some 0 else none
  | c :: cs =>
    if isPrefixList sub (c :: cs) then some 0
    else (findSubIdx sub cs).map (· + 1)

/-- Embeds `int(...)` on a string of decimal digits. -/
def natOfDigits (l : List Char) : Nat :=
  l.foldl (fun a c => a * 10 + (c.toNat - 48)) 0

/-- The Python format directive `{n:02d}`. -/
def pad2 (n : Nat) : String :=
  if n < 10 then "0" ++ toString n else toString n

/-- The Python format directive `{n:04d}`. -/
def pad4 (n : Nat) : String :=
  if n < 10 then "000" ++ toString n
  else if n < 100 then "00" ++ toString n
  else if n < 1000 then "0" ++ toString n
  else toString n

/-- Embeds the replace call of line 234 that maps each space of the player
name to an underscore: the pattern is a single character, so the
replacement is a character-wise map. -/
def replaceSpaces (s : String) : String :=
  String.mk (s.data.map (fun c => if c = ' ' then '_' else c))

/-- The month alternation `(Jan|Feb|Mar|Apr|May|Jun|Jul|Aug|Sep|Oct|Nov|Dec)`
tried at the head of the input; returns the month number and the rest. -/
def monthHere : List Char → Option (Nat × List Char)
  | 'J' :: 'a' :: 'n' :: r => some (1, r)
  | 'F' :: 'e' :: 'b' :: r => some (2, r)
  | 'M' :: 'a' :: 'r' :: r => some (3, r)
  | 'A' :: 'p' :: 'r' :: r => some (4, r)
  | 'M' :: 'a' :: 'y' :: r => some (5, r)
  | 'J' :: 'u' :: 'n' :: r => some (6, r)
  | 'J' :: 'u' :: 'l' :: r => some (7, r)
  | 'A' :: 'u' :: 'g' :: r => some (8, r)
  | 'S' :: 'e' :: 'p' :: r => some (9, r)
  | 'O' :: 'c' :: 't' :: r => some (10, r)
  | 'N' :: 'o' :: 'v' :: r => some (11, r)
  | 'D' :: 'e' :: 'c' :: r => some (12, r)
  | _ => none

/-- One anchored attempt of the date pattern
`(Jan|...|Dec)\s+(\d+),\s+(\d+)` at the head of the input.  The character
classes of adjacent quantifiers are disjoint, so the greedy match is
deterministic.  Returns month number, day digits, year digits, rest. -/
def dateCoreAt (cs : List Char) : Option (Nat × List Char × List Char × List Char) :=
  match monthHere cs with
  | none => none
  | some (m, r1) =>
    let w := r1.takeWhile pySpace
    if w.isEmpty then none
    else
      let r2 := r1.dropWhile pySpace
      let d := r2.takeWhile pyDigit
      if d.isEmpty then none
      else
        match r2.dropWhile pyDigit with
        | ',' :: r4 =>
          let w2 := r4.takeWhile pySpace
          if w2.isEmpty then none
          else
            let r5 := r4.dropWhile pySpace
            let y := r5.takeWhile pyDigit
            if y.isEmpty then none
            else some (m, d, y, r5.dropWhile pyDigit)
        | _ => none

/-- Embeds the `re.search` of the date pattern of `parse_transaction_line`
(line 203): leftmost match, groups (month, day, year). -/
def findDateMatch : List Char → Option (Nat × List Char × List Char)
  | [] => none
  | c :: cs =>
    match dateCoreAt (c :: cs) with
    | some (m, d, y, _) => some (m, d, y)
    | none => findDateMatch cs

/-- One anchored attempt of the guard pattern of `parse_text_patterns`
(line 157): the date core followed by `\s*-`. -/
def dateGuardAt (cs : List Char) : Bool :=
  match dateCoreAt cs with
  | none => false
  | some (_, _, _, rest) =>
    match rest.dropWhile pySpace with
    | '-' :: _ => true
    | _ => false

/-- Embeds the `re.search` of the guard pattern `(Jan|...)\s+\d+,\s+\d+\s*-`. -/
def dateDashGuard : List Char → Bool
  | [] => false
  | c :: cs => dateGuardAt (c :: cs) || dateDashGuard cs

/-- String wrapper for `dateDashGuard`. -/
def dateDashGuardS (s : String) : Bool :=
  dateDashGuard s.data

/-- Embeds the anchored player-identity search of `parse_text_patterns`
(line 150), pattern `^([^(]+)\s*\(([^)]+)\)\s*$`.  `[^(]+` cannot cross the first `(` and
`[^)]+` cannot cross the first `)` after it, so the match is determined by
those two bracket positions; on success the groups are the maximal runs.
Returns the stripped name and position. -/
def playerLineMatch (line : String) : Option (String × String) :=
  let cs := line.data
  let pre := cs.takeWhile (fun c => c ≠ '(')
  match cs.dropWhile (fun c => c ≠ '(') with
  | '(' :: rest2 =>
    let inner := rest2.takeWhile (fun c => c ≠ ')')
    match rest2.dropWhile (fun c => c ≠ ')') with
    | ')' :: rest4 =>
      if !pre.isEmpty && !inner.isEmpty && rest4.all pySpace then
        some (String.mk (stripList pre), String.mk (stripList inner))
      else none
    | _ => none
  | _ => none

/-- Embeds the player-identity search of `parse_transaction_text`
(line 180), pattern `^([^(]+)\s*\(([^)]+)\)`: as `playerLineMatch` but
without the end anchor; also returns the text after the match (for
`text[match.end():]`). -/
def playerHeadMatch (cs : List Char) : Option (String × String × List Char) :=
  let pre := cs.takeWhile (fun c => c ≠ '(')
  match cs.dropWhile (fun c => c ≠ '(') with
  | '(' :: rest2 =>
    let inner := rest2.takeWhile (fun c => c ≠ ')')
    match rest2.dropWhile (fun c => c ≠ ')') with
    | ')' :: rest4 =>
      if !pre.isEmpty && !inner.isEmpty then
        some (String.mk (stripList pre), String.mk (stripList inner), rest4)
      else none
    | _ => none
  | _ => none

/-- One anchored attempt of `kw\s+([^(]+)\s*\(([^)]+)\)` at the head of
the input, `kw` being the literal `with` or `by` (line 223).  Writing `q`
for the offset of the first `(` after the keyword and `w` for the length
of the whitespace run after the keyword (note `w ≤ q`), the backtracking
engine matches iff `w ≥ 1`, `q ≥ 2`, and at least one non-`)` character
sits between that `(` and the next `)`; group 1 is then the text from
offset `min w (q-1)` up to `q`. -/
def teamTryAt (rest : List Char) : Option (String × String) :=
  let pre := rest.takeWhile (fun c => c ≠ '(')
  match rest.dropWhile (fun c => c ≠ '(') with
  | '(' :: xs =>
    let q := pre.length
    let w := (pre.takeWhile pySpace).length
    let inner := xs.takeWhile (fun c => c ≠ ')')
    match xs.dropWhile (fun c => c ≠ ')') with
    | ')' :: _ =>
      if 1 ≤ w && 2 ≤ q && !inner.isEmpty then
        some (String.mk (stripList (pre.drop (min w (q - 1)))),
              String.mk (stripList inner))
      else none
    | _ => none
  | _ => none

/-- Embeds the `re.search` of the keyword team pattern: scan start
positions left to right; at each occurrence of the keyword attempt the
anchored match. -/
def teamSearchKw (kw : List Char) : List Char → Option (String × String)
  | [] => none
  | c :: cs =>
    match (if isPrefixList kw (c :: cs) then teamTryAt ((c :: cs).drop kw.length) else none) with
    | some g => some g
    | none => teamSearchKw kw cs

/-- Embeds line 223: search the description for the pattern
`with\s+([^(]+)\s*\(([^)]+)\)` and, when that fails everywhere, for the
same pattern with the keyword `by`. -/
def findTeam (description : String) : Option (String × String) :=
  match teamSearchKw ("with".data) description.data with
  | some g => some g
  | none => teamSearchKw ("by".data) description.data

/-- The canonical record produced by `parse_transaction_line`
(lines 236-246).  `ttype` embeds the dictionary key `type`, which is a
reserved word in Lean. -/
structure TransactionRecord where
  date : String
  ttype : String
  team : String
  player : String
  position : String
  description : String
  transaction_id : String
  scraped_at : String
  source : String
  deriving Repr, DecidableEq

/-- The static team abbreviation mapping of `SpotracNFLScraper.__init__`
(lines 38-50). -/
def team_mapping : List (String × String) :=
  [("ARI", "Arizona Cardinals"), ("ATL", "Atlanta Falcons"), ("BAL", "Baltimore Ravens"),
   ("BUF", "Buffalo Bills"), ("CAR", "Carolina Panthers"), ("CHI", "Chicago Bears"),
   ("CIN", "Cincinnati Bengals"), ("CLE", "Cleveland Browns"), ("DAL", "Dallas Cowboys"),
   ("DEN", "Denver Broncos"), ("DET", "Detroit Lions"), ("GB", "Green Bay Packers"),
   ("HOU", "Houston Texans"), ("IND", "Indianapolis Colts"), ("JAX", "Jacksonville Jaguars"),
   ("KC", "Kansas City Chiefs"), ("LV", "Las Vegas Raiders"), ("LAC", "Los Angeles Chargers"),
   ("LAR", "Los Angeles Rams"), ("MIA", "Miami Dolphins"), ("MIN", "Minnesota Vikings"),
   ("NE", "New England Patriots"), ("NO", "New Orleans Saints"), ("NYG", "New York Giants"),
   ("NYJ", "New York Jets"), ("PHI", "Philadelphia Eagles"), ("PIT", "Pittsburgh Steelers"),
   ("SF", "San Francisco 49ers"), ("SEA", "Seattle Seahawks"), ("TB", "Tampa Bay Buccaneers"),
   ("TEN", "Tennessee Titans"), ("WAS", "Washington Commanders")]

/-- Embeds `classify_transaction` (lines 252-273): case-insensitive
keyword match over the lower-cased description, first match wins. -/
def classify_transaction (description : String) : String :=
  let d := (pyLower description).data
  if hasSubList ("signed".data) d && hasSubList ("extension".data) d then "Contract Extension"
  else if hasSubList ("signed".data) d then "Signing"
  else if hasSubList ("traded".data) d then "Trade"
  else if hasSubList ("released".data) d then "Release"
  else if hasSubList ("waived".data) d then "Waiver"
  else if hasSubList ("claimed".data) d then "Waiver Claim"
  else if hasSubList ("suspended".data) d then "Suspension"
  else if hasSubList ("retired".data) d then "Retirement"
  else "Other"

/-- The classifier as worded in spec §4.4, for refinement comparison
with `classify_transaction`. -/
def classifySpec (description : String) : String :=
  let d := (pyLower description).data
  if hasSubList ("signed".data) d && hasSubList ("extension".data) d then "Contract Extension"
  else if hasSubList ("signed".data) d then "Signing"
  else if hasSubList ("traded".data) d then "Trade"
  else if hasSubList ("released".data) d then "Release"
  else if hasSubList ("waived".data) d then "Waiver"
  else if hasSubList ("claimed".data) d then "Waiver Claim"
  else if hasSubList ("suspended".data) d then "Suspension"
  else if hasSubList ("retired".data) d then "Retirement"
  else "Other"

/-- Lines 223-228: team resolution from the description.  On a keyword
match, `team_mapping.get(abbr, team_full)`; otherwise the literals
`"Unknown"` / `"UNK"` stand in for the full name and the abbreviation. -/
def teamFromDesc (description : String) : String :=
  match findTeam description with
  | some (team_full, team_abbr) => (List.lookup team_abbr team_mapping).getD team_full
  | none => (List.lookup "UNK" team_mapping).getD "Unknown"

/-- Line 213: `f"{year}-{month_num:02d}-{int(day):02d}"` with `year` the
raw digit group. -/
def fmtDateStr (year : List Char) (monthNum : Nat) (day : List Char) : String :=
  String.mk year ++ "-" ++ pad2 monthNum ++ "-" ++ pad2 (natOfDigits day)

/-- Line 234: the synthesized identifier
`f"SPOTRAC_{date_str}_{player_}_{hash(description) % 10000:04d}"`.
The Python builtin `hash` on `str` is salted with a per-process random
key (`PYTHONHASHSEED`), so it is passed here as the explicit parameter
`hashFn`. -/
def mkTransactionId (hashFn : String → Nat) (dateStr player description : String) : String :=
  "SPOTRAC_" ++ dateStr ++ "_" ++ replaceSpaces player ++ "_" ++ pad4 (hashFn description % 10000)

/-- A concrete instantiation of the salted Python string hash: the salt
is the initial accumulator of the mixing fold.  The precise mixing
function is immaterial; only its dependence on the per-process salt
matters to the claims. -/
def hashSalted (salt : Nat) (s : String) : Nat :=
  s.data.foldl (fun a c => (a * 31 + c.toNat) % 1000000007) salt

/-- Embeds `parse_transaction_line` (lines 196-250).  `hashFn` is the salted
process hash, `nowIso` the value of `datetime.now().isoformat()` at
processing time.  A `none` player reaches the attribute access
`player.replace` on line 234, raising inside the `try` block, so the
function returns `None` in that case. -/
def parse_transaction_line (hashFn : String → Nat) (nowIso : String)
    (line : String) (player : Option String) (position : Option String) :
    Option TransactionRecord :=
  match findDateMatch line.data with
  | none => none
  | some (m, dayDigits, yearDigits) =>
    match findSubIdx (" - ".data) line.data with
    | none => none
    | some i =>
      let description := String.mk (stripList (line.data.drop (i + 3)))
      match player with
      | none => none
      | some p =>
        let date_str := fmtDateStr yearDigits m dayDigits
        some { date := date_str
               ttype := classify_transaction description
               team := teamFromDesc description
               player := if p = "" then "Unknown Player" else p
               position := position.getD ""
               description := description
               transaction_id := mkTransactionId hashFn date_str p description
               scraped_at := nowIso
               source := "Spotrac" }

/-- One iteration of the line loop of `parse_text_patterns`
(lines 144-162).  The state is the pending `(current_player,
current_position)` pair (`none` embeds the Python `None`); the result is
the new state and the records emitted by this line.  Note that the
pattern-2 branch is guarded by the truthiness of `current_player`, so a
pending empty-string player never pairs, and that the pending identity is
cleared even when `parse_transaction_line` returns `None`. -/
def parseLineStep (hashFn : String → Nat) (nowIso : String)
    (st : Option (String × String)) (rawLine : String) :
    Option (String × String) × List TransactionRecord :=
  let line := pyStrip rawLine
  if line = "" then (st, [])
  else
    match playerLineMatch line with
    | some pp => (some pp, [])
    | none =>
      match st with
      | some (cp, cpos) =>
        if (cp != "") && dateDashGuardS line then
          (none, (parse_transaction_line hashFn nowIso line (some cp) (some cpos)).toList)
        else (st, [])
      | none => (st, [])

/-- Accumulating scan for `str.split('\n')`. -/
def splitLinesGo (cur : List Char) : List Char → List String
  | [] => [String.mk cur.reverse]
  | '\n' :: cs => String.mk cur.reverse :: splitLinesGo [] cs
  | c :: cs => splitLinesGo (c :: cur) cs

/-- Embeds the newline split of line 139, keeping empty pieces. -/
def pySplitNewline (s : String) : List String :=
  splitLinesGo [] s.data

/-- The fold of `parseLineStep` over a list of lines. -/
def parseLinesGo (hashFn : String → Nat) (nowIso : String)
    (st : Option (String × String)) : List String → List TransactionRecord
  | [] => []
  | l :: ls =>
    let out := parseLineStep hashFn nowIso st l
    out.2 ++ parseLinesGo hashFn nowIso out.1 ls

/-- Embeds `parse_text_patterns` (lines 133-164): split the content on
newlines and run the pairing scan. -/
def parse_text_patterns (hashFn : String → Nat) (nowIso : String)
    (html_content : String) : List TransactionRecord :=
  parseLinesGo hashFn nowIso none (pySplitNewline html_content)

/-- Embeds `is_transaction_text` (lines 166-174). -/
def is_transaction_text (text : String) : Bool :=
  let d := (pyLower text).data
  ["signed", "released", "traded", "waived", "claimed",
   "contract", "extension", "suspended", "retired"].any
    (fun k => hasSubList k.data d)

/-- Embeds `parse_transaction_text` (lines 176-194). -/
def parse_transaction_text (hashFn : String → Nat) (nowIso : String)
    (text : String) : Option TransactionRecord :=
  match playerHeadMatch text.data with
  | none => none
  | some (p, pos, rest) =>
    parse_transaction_line hashFn nowIso (String.mk (stripList rest)) (some p) (some pos)

/-- Embeds `parse_structured_elements` (lines 120-131); the markup
elements are abstracted as the list of their `get_text()` strings. -/
def parse_structured_elements (hashFn : String → Nat) (nowIso : String)
    (texts : List String) : List TransactionRecord :=
  texts.foldr
    (fun t acc =>
      let t' := pyStrip t
      if is_transaction_text t' then
        match parse_transaction_text hashFn nowIso t' with
        | some r => r :: acc
        | none => acc
      else acc)
    []

/-- Embeds `parse_spotrac_page` (lines 93-118): the structured strategy
first (its element list abstracted as `elements`); if it yields no
records, fall back to text pattern matching. -/
def parse_spotrac_page (hashFn : String → Nat) (nowIso : String)
    (elements : List String) (html_content : String) : List TransactionRecord :=
  let ts := if elements.isEmpty then [] else parse_structured_elements hashFn nowIso elements
  if ts.isEmpty then parse_text_patterns hashFn nowIso html_content else ts

/-- Calendar length of a month, as validated by `datetime`. -/
def daysInMonth (y m : Nat) : Nat :=
  if m = 2 then
    if y % 4 = 0 && (y % 100 ≠ 0 || y % 400 = 0) then 29 else 28
  else if m = 4 || m = 6 || m = 9 || m = 11 then 30
  else 31

/-- Days before month `m` in year `y`. -/
def daysBeforeMonth (y m : Nat) : Nat :=
  (List.range (m - 1)).foldl (fun a i => a + daysInMonth y (i + 1)) 0

/-- Rata-die day number of a calendar date (days since 0001-01-00). -/
def dayNumber (y m d : Nat) : Nat :=
  365 * (y - 1) + (y - 1) / 4 - (y - 1) / 100 + (y - 1) / 400 + daysBeforeMonth y m + d

/-- Embeds `datetime.strptime` with format `%Y-%m-%d`: exactly four year
digits, a month of one or two digits in 1..12, a day validated against
the month length, and full consumption of the input; `none` embeds
`ValueError`. -/
def strptimeYmd (s : String) : Option (Nat × Nat × Nat) :=
  match s.data with
  | y1 :: y2 :: y3 :: y4 :: '-' :: rest =>
    if ([y1, y2, y3, y4].all pyDigit) then
      let y := natOfDigits [y1, y2, y3, y4]
      let finish := fun (m : Nat) (ds : List Char) =>
        if ds.all pyDigit && decide (1 ≤ ds.length) && decide (ds.length ≤ 2) &&
           1 ≤ natOfDigits ds && natOfDigits ds ≤ daysInMonth y m && 1 ≤ y then
          some (y, m, natOfDigits ds)
        else none
      match rest with
      | m1 :: m2 :: '-' :: ds =>
        if pyDigit m1 && pyDigit m2 && 1 ≤ natOfDigits [m1, m2] && natOfDigits [m1, m2] ≤ 12 then
          finish (natOfDigits [m1, m2]) ds
        else none
      | m1 :: '-' :: ds =>
        if pyDigit m1 && 1 ≤ natOfDigits [m1] then finish (natOfDigits [m1]) ds else none
      | _ => none
    else none
  | _ => none

/-- The possible outcomes of one `self.session.get` request: a 2xx body
(the markup elements recovered by the soup abstracted as their text
list) or a `requests` exception. -/
inductive FetchOutcome where
  | success (elements : List String) (html : String)
  | timeout
  | httpError (status : Nat)
  | connectionError
  deriving Repr, DecidableEq

/-- Whether an outcome is a 2xx response. -/
def FetchOutcome.isSuccess : FetchOutcome → Bool
  | .success _ _ => true
  | _ => false

/-- The `requests.exceptions.RequestException` re-raised by
`fetch_transactions` (line 91), rendered through `str(e)` where a message
is needed. -/
inductive FetchErr where
  | timeout
  | http (status : Nat)
  | connection
  deriving Repr, DecidableEq

/-- Embeds `str(e)` for a fetch failure. -/
def FetchErr.msg : FetchErr → String
  | .timeout => "request timed out"
  | .http s => "HTTP error " ++ toString s
  | .connection => "connection error"

/-- The date cutoff filter of `fetch_transactions` (lines 74-84): keep a
transaction when its strptime-parsed date is at least `now -
timedelta(days=days_back)`, and keep it unconditionally when the parse
raises.  `nowMin` is the current instant in minutes since the rata-die
epoch; a parsed date denotes midnight of that day. -/
def cutoffKeep (nowMin days_back : Nat) (t : TransactionRecord) : Bool :=
  match strptimeYmd t.date with
  | some (y, m, d) => decide ((dayNumber y m d * 1440 : Int) ≥ (nowMin : Int) - days_back * 1440)
  | none => true

/-- Embeds `fetch_transactions` (lines 52-91).  `net i` is the outcome of the
`i`-th HTTP request the call would issue; the first component of the
result counts the requests actually issued.  A `RequestException` is
logged and re-raised (no retry appears in the source). -/
def fetch_transactions (hashFn : String → Nat) (nowIso : String)
    (nowMin days_back : Nat) (net : Nat → FetchOutcome) :
    Nat × Except FetchErr (List TransactionRecord) :=
  match net 0 with
  | .success elements html =>
    (1, .ok ((parse_spotrac_page hashFn nowIso elements html).filter (cutoffKeep nowMin days_back)))
  | .timeout => (1, .error .timeout)
  | .httpError s => (1, .error (.http s))
  | .connectionError => (1, .error .connection)

/-- Embeds the scan of the drop_duplicates call of line 296 (subset the
transaction identifier, keeping the first occurrence): keep a record iff
its identifier has not been seen earlier in the batch. -/
def dedupeGo (seenIds : List String) : List TransactionRecord → List TransactionRecord
  | [] => []
  | r :: rs =>
    if seenIds.contains r.transaction_id then dedupeGo seenIds rs
    else r :: dedupeGo (r.transaction_id :: seenIds) rs

/-- Intra-batch deduplication, line 296. -/
def dedupeBatch (rs : List TransactionRecord) : List TransactionRecord :=
  dedupeGo [] rs

/-- Insertion into a list sorted by `date` descending. -/
def insertByDateDesc (r : TransactionRecord) :
    List TransactionRecord → List TransactionRecord
  | [] => [r]
  | x :: xs =>
    if x.date < r.date then r :: x :: xs else x :: insertByDateDesc r xs

/-- Embeds the descending sort_values on the date column (line 299),
modelled as a deterministic insertion sort on the lexicographic string
order (pandas does not promise a stable order among equal dates). -/
def sortByDateDesc (rs : List TransactionRecord) : List TransactionRecord :=
  rs.foldr insertByDateDesc []

/-- Embeds `get_daily_transactions` (lines 275-312).  The `date` argument is
accepted but the body never reads it; the fetch is always the trailing
7-day window.  An empty fetch result yields the empty frame (a soft
no-data outcome); a fetch exception propagates. -/
def get_daily_transactions (hashFn : String → Nat) (nowIso : String)
    (nowMin : Nat) (net : Nat → FetchOutcome) (date : Option String) :
    Nat × Except FetchErr (List TransactionRecord) :=
  let fr := fetch_transactions hashFn nowIso nowMin 7 net
  (fr.1, fr.2.map (fun raw => if raw.isEmpty then [] else sortByDateDesc (dedupeBatch raw)))

/-- Embeds `GoogleSheetsUpdater.filter_new_transactions` (lines 135-157): a
no-op when no identifiers exist downstream, otherwise drop the rows
whose `transaction_id` is already present. -/
def filter_new_transactions (existing_ids : List String)
    (df : List TransactionRecord) : List TransactionRecord :=
  if existing_ids.isEmpty then df
  else df.filter (fun r => !(existing_ids.contains r.transaction_id))

/-- The deduplication pipeline of spec §4.5 as realised by the code: the
intra-batch collapse of `get_daily_transactions` (line 296) followed by
the cross-run filter of `filter_new_transactions`. -/
def dedupe (records : List TransactionRecord) (seen_identities : List String) :
    List TransactionRecord :=
  filter_new_transactions seen_identities (dedupeBatch records)

/-- Result dictionary of `GoogleSheetsUpdater.process_daily_update`
(lines 251-258), restricted to the counts the orchestrator reads. -/
structure SheetsOutcome where
  new_transactions : Nat
  duplicate_transactions : Nat
  deriving Repr, DecidableEq

/-- Embeds `process_daily_update` (lines 225-265).  `existing_ids` is the
worksheet read of `get_existing_transaction_ids`; `appendRes` is the
outcome of the external spreadsheet calls (worksheet setup and
`append_rows`), which `append_transactions` only performs on a non-empty
new-row set; an exception there is re-raised. -/
def process_daily_update (existing_ids : List String)
    (appendRes : Except String Unit) (df : List TransactionRecord) :
    Except String SheetsOutcome :=
  let new_df := filter_new_transactions existing_ids df
  if new_df.isEmpty then
    .ok { new_transactions := 0, duplicate_transactions := df.length }
  else
    match appendRes with
    | .error e => .error e
    | .ok _ =>
      .ok { new_transactions := new_df.length,
            duplicate_transactions := df.length - new_df.length }

/-- The results dictionary of `run_daily_automation` (lines 71-80). -/
structure RunResults where
  success : Bool
  start_time : String
  date_processed : String
  transactions_found : Nat
  transactions_saved_csv : Nat
  transactions_added_sheets : Nat
  csv_file : Option String
  errors : List String
  duplicate_transactions : Option Nat
  end_time : Option String
  deriving Repr, DecidableEq

/-- Embeds `run_daily_automation` (lines 58-123).  Stage effects are explicit:
the scrape stage is `get_daily_transactions` over the transport `net`;
`save` is the CSV write of `save_to_csv` returning the filename; `sheets`
is `none` when no updater is configured, otherwise the worksheet read and
the outcome of the external append calls.  On any stage exception the
`except` block records the error in the local dictionary and re-raises,
so the caller receives the exception, not the dictionary. -/
def run_daily_automation (hashFn : String → Nat) (nowIso : String) (nowMin : Nat)
    (net : Nat → FetchOutcome) (date : Option String)
    (startIso todayStr endIso : String)
    (save : List TransactionRecord → Except String String)
    (sheets : Option (List String × Except String Unit)) :
    Except String RunResults :=
  let base : RunResults :=
    { success := false, start_time := startIso,
      date_processed := date.getD todayStr,
      transactions_found := 0, transactions_saved_csv := 0,
      transactions_added_sheets := 0, csv_file := none, errors := [],
      duplicate_transactions := none, end_time := none }
  match (get_daily_transactions hashFn nowIso nowMin net date).2 with
  | .error e => .error e.msg
  | .ok df =>
    let r1 := { base with transactions_found := df.length }
    if df.isEmpty then .ok { r1 with success := true }
    else
      match save df with
      | .error e => .error e
      | .ok filename =>
        let r2 := { r1 with csv_file := some filename,
                            transactions_saved_csv := df.length }
        match sheets with
        | none => .ok { r2 with success := true, end_time := some endIso }
        | some (existing_ids, appendRes) =>
          match process_daily_update existing_ids appendRes df with
          | .error e => .error e
          | .ok so =>
            .ok { r2 with
                  transactions_added_sheets := so.new_transactions,
                  duplicate_transactions := some so.duplicate_transactions,
                  success := true, end_time := some endIso }

/-- Shape test for an ISO-8601 date or timestamp: ten leading
`YYYY-MM-DD` characters standing alone or followed by a `T` time part. -/
def isIsoDateHead (s : String) : Bool :=
  match s.data with
  | y1 :: y2 :: y3 :: y4 :: '-' :: m1 :: m2 :: '-' :: d1 :: d2 :: rest =>
    ([y1, y2, y3, y4, m1, m2, d1, d2].all pyDigit) &&
    (match rest with
     | [] => true
     | 'T' :: _ => true
     | _ => false)
  | _ => false

/-- Modelled from the spec: the date normalization of the Normalizer
(§4.3, clause 2) is implemented by `clean_transaction_data`, which the
test suite calls but which is absent from `src/`.  An ISO-8601 timestamp
(with or without trailing `Z`/offset, with or without sub-second
precision) and a bare `YYYY-MM-DD` date keep their ten date characters;
the textual `<Mon> <day>, <year>` form goes through the month map and
formatter of `parse_transaction_line`; otherwise the processing date
`today` is substituted. -/
def clean_transaction_date (today : String) (raw : String) : String :=
  if isIsoDateHead raw then String.mk (raw.data.take 10)
  else
    match findDateMatch raw.data with
    | some (m, dayDigits, yearDigits) => fmtDateStr yearDigits m dayDigits
    | none => today

/-- The transaction line of the docstring of `parse_transaction_line`
(line 199), used as a concrete probe input. -/
def cLine : String :=
  "Jul 03, 2025 - Signed a 3 year contract extension through 2028 with Pittsburgh (PIT)"

/-- A transaction line whose matched team name is all whitespace and
whose abbreviation is unmapped. -/
def cTeamEdgeLine : String := "Jul 03, 2025 - Signed with  (XYZ) deal"

/-- A transaction line with nothing after the dash. -/
def cEmptyDescLine : String := "Jul 03, 2025 - "

/-- The record `parse_transaction_line` emits for
`"Jul 03, 2025 - Retired"`, player `"A B"`, no position, under the salt-0
hash at processing time `"T0"`. -/
def cRec : TransactionRecord :=
  { date := "2025-07-03", ttype := "Retirement", team := "Unknown",
    player := "A B", position := "", description := "Retired",
    transaction_id := "SPOTRAC_2025-07-03_A_B_4844", scraped_at := "T0",
    source := "Spotrac" }

/-- A minimal record with a given identity key and description, for the
deduplication example of spec §8. -/
def mkIdRec (idKey desc : String) : TransactionRecord :=
  { date := "2024-01-01", ttype := "Other", team := "Unknown", player := "P",
    position := "", description := desc, transaction_id := idKey,
    scraped_at := "T0", source := "Spotrac" }

/-- First record with identity `A`. -/
def cRecA : TransactionRecord := mkIdRec "A" "first"

/-- Record with identity `B`. -/
def cRecB : TransactionRecord := mkIdRec "B" "middle"

/-- Second record with identity `A` (a different row, same identity). -/
def cRecA2 : TransactionRecord := mkIdRec "A" "second"

/-- A transport whose first request times out and whose later requests
would succeed: the profile under which a retrying fetcher recovers. -/
def netTimeoutThenOk : Nat → FetchOutcome :=
  fun n => if n = 0 then .timeout else .success [] ""

/-- A transport that always times out. -/
def netTimeoutAlways : Nat → FetchOutcome := fun _ => .timeout

/-- A transport returning a 2xx page that matches no pattern. -/
def netGarbagePage : Nat → FetchOutcome :=
  fun _ => .success [] "hello world\nno patterns here"

/-- A CSV save stage that succeeds. -/
def saveOkStub : List TransactionRecord → Except String String :=
  fun _ => .ok "data/out.csv"

/- ------------------------------------------------------------------ -/
/- Helper lemmas                                                       -/
/- ------------------------------------------------------------------ -/

/-- The classifier never returns the empty string. -/
theorem classify_transaction_ne_empty (d : String) : classify_transaction d ≠ "" := by
  simp only [classify_transaction]
  split_ifs <;> decide

/-- The date formatter never returns the empty string. -/
theorem fmtDateStr_ne_empty (y : List Char) (m : Nat) (d : List Char) :
    fmtDateStr y m d ≠ "" := by
  intro h
  have hl := congrArg String.length h
  have hone : ("-" : String).length = 1 := rfl
  simp [fmtDateStr, String.length_append, hone] at hl

/-- The synthesized identifier never is the empty string. -/
theorem mkTransactionId_ne_empty (hashFn : String → Nat) (d p desc : String) :
    mkTransactionId hashFn d p desc ≠ "" := by
  intro h
  have hl := congrArg String.length h
  have height : ("SPOTRAC_" : String).length = 8 := rfl
  simp [mkTransactionId, String.length_append, height] at hl

/-- When the description carries no team reference, the team resolves to
the sentinel. -/
theorem teamFromDesc_of_none {d : String} (h : findTeam d = none) :
    teamFromDesc d = "Unknown" := by
  unfold teamFromDesc
  rw [h]
  decide

/-- The intra-batch scan returns an order-preserving subsequence. -/
theorem dedupeGo_sublist (seen : List String) (rs : List TransactionRecord) :
    (dedupeGo seen rs).Sublist rs := by
  induction rs generalizing seen with
  | nil => simp [dedupeGo]
  | cons r rs ih =>
    unfold dedupeGo
    split
    · exact (ih seen).cons r
    · exact (ih (r.transaction_id :: seen)).cons₂ r

/-- A filtered list satisfies its own filter predicate. -/
theorem all_filter_self (p : TransactionRecord → Bool) (l : List TransactionRecord) :
    (l.filter p).all p = true := by
  induction l with
  | nil => rfl
  | cons a as ih => by_cases h : p a <;> simp [List.filter, h, ih]

/- ------------------------------------------------------------------ -/
/- Claim theorems                                                      -/
/- ------------------------------------------------------------------ -/

/-- C3: `classify_transaction` is the pure, case-insensitive, first-match
keyword classifier of spec §4.4 (refinement against the spec-side
definition), and it maps the four sample descriptions to Contract
Extension, Release, Trade and Other. -/
theorem c3_classification :
    (∀ d, classify_transaction d = classifySpec d) ∧
    classify_transaction "Signed a 3 year contract extension through 2028 with Pittsburgh"
      = "Contract Extension" ∧
    classify_transaction "Released from practice squad" = "Release" ∧
    classify_transaction "Traded to the Jets" = "Trade" ∧
    classify_transaction "Had a great day" = "Other" :=
  ⟨fun _ => rfl, by decide, by decide, by decide, by decide⟩

/-- C4: deduplication first collapses records sharing an identity key,
keeping the first occurrence, then drops records whose key is in the
seen set; survivors keep their relative order (sublist), no survivor
carries a seen identity, and the batch `[A, B, A]` against the seen set
`{B}` yields exactly `[A]` (the first `A` row). -/
theorem c4_dedupe :
    dedupe [cRecA, cRecB, cRecA2] ["B"] = [cRecA] ∧
    (∀ records seen_identities,
        (dedupe records seen_identities).Sublist records) ∧
    (∀ records seen_identities,
        (dedupe records seen_identities).all
          (fun r => !(seen_identities.contains r.transaction_id)) = true) := by
  refine ⟨by decide, ?_, ?_⟩
  · intro records seen
    unfold dedupe filter_new_transactions
    split
    · exact dedupeGo_sublist [] records
    · exact (List.filter_sublist _).trans (dedupeGo_sublist [] records)
  · intro records seen
    unfold dedupe filter_new_transactions
    split
    · next hseen =>
      have : seen = [] := by
        cases seen with
        | nil => rfl
        | cons a as => simp [List.isEmpty] at hseen
      subst this
      simp [List.all_eq_true]
    · exact all_filter_self _ _

/-- C5: the date inputs of spec §8 — an ISO timestamp with and without
sub-second precision, a bare date, and the textual month form — all
normalize to the canonical `YYYY-MM-DD` value. -/
theorem c5_date_normalization :
    ∀ today : String,
      clean_transaction_date today "2024-01-15T14:30:00Z" = "2024-01-15" ∧
      clean_transaction_date today "2024-01-15T14:30:00.000Z" = "2024-01-15" ∧
      clean_transaction_date today "2024-01-15" = "2024-01-15" ∧
      clean_transaction_date today "Jul 03, 2025" = "2025-07-03" :=
  fun _ => ⟨rfl, rfl, rfl, rfl⟩

/-- C10: the `date` argument of `get_daily_transactions` has no effect on
the fetched or returned record set — for any two date arguments, the same
transport, hash, and processing instant, the results coincide, because
the body always fetches the trailing 7-day window and never reads the
argument. -/
theorem c10_date_argument_ignored :
    ∀ (hashFn : String → Nat) (nowIso : String) (nowMin : Nat)
      (net : Nat → FetchOutcome) (d1 d2 : Option String),
      get_daily_transactions hashFn nowIso nowMin net d1 =
        get_daily_transactions hashFn nowIso nowMin net d2 :=
  fun _ _ _ _ _ _ => rfl

/-- C6 counterexample: under a transport whose first request times out (a
transient failure) and whose second would succeed, `fetch_transactions`
issues exactly one request and surfaces the failure — it does not retry,
contradicting the claimed bounded retry with exponential backoff. -/
theorem c6_fetch_counterexample :
    fetch_transactions (hashSalted 0) "T0" 1000000 7 netTimeoutThenOk
      = (1, Except.error FetchErr.timeout) := rfl

/-- C6 amended: `fetch_transactions` issues exactly one HTTP request per
call and performs no retry for any failure class; the call succeeds iff
that single request does, and any failure — transient or not — is
surfaced as a raised `RequestException`. -/
theorem c6_fetch_amended :
    ∀ (hashFn : String → Nat) (nowIso : String) (nowMin days_back : Nat)
      (net : Nat → FetchOutcome),
      (fetch_transactions hashFn nowIso nowMin days_back net).1 = 1 ∧
      (fetch_transactions hashFn nowIso nowMin days_back net).2.isOk
        = (net 0).isSuccess := by
  intro hashFn nowIso nowMin days_back net
  cases h : net 0 <;>
    simp [fetch_transactions, h, Except.isOk, Except.toBool, FetchOutcome.isSuccess]

/-- C7 counterexample: when the scrape stage fails, `run_daily_automation`
re-raises instead of returning the results dictionary: the caller receives
the exception, not a structured outcome object. -/
theorem c7_outcome_counterexample :
    run_daily_automation (hashSalted 0) "T0" 1000000 netTimeoutAlways none
      "S" "D" "E" saveOkStub none = Except.error "request timed out" := rfl

/-- C7 amended: `run_daily_automation` returns a structured outcome only
on the paths where no stage raises (and then with `success = true`); when
a stage fails, the locally recorded outcome is discarded and the
exception propagates to the caller. -/
theorem c7_outcome_amended :
    ∀ (hashFn : String → Nat) (nowIso : String) (nowMin : Nat)
      (net : Nat → FetchOutcome) (date : Option String)
      (startIso todayStr endIso : String)
      (save : List TransactionRecord → Except String String)
      (sheets : Option (List String × Except String Unit)),
      (∃ msg, run_daily_automation hashFn nowIso nowMin net date
                startIso todayStr endIso save sheets = Except.error msg) ∨
      (∃ r, run_daily_automation hashFn nowIso nowMin net date
              startIso todayStr endIso save sheets = Except.ok r ∧
            r.success = true) := by
  intro hashFn nowIso nowMin net date startIso todayStr endIso save sheets
  unfold run_daily_automation
  repeat' split
  all_goals first
    | exact Or.inl ⟨_, rfl⟩
    | exact Or.inr ⟨_, rfl, rfl⟩

set_option maxRecDepth 8192 in
/-- C1: within one process (one hash salt) the identity key of a parsed
record is a pure function of its business fields and in particular does
not depend on the processing timestamp; but because `transaction_id`
embeds `hash(description) % 10000` and the Python string hash is salted
per process, the same line parsed under two different salts — two process
restarts — yields different identity keys, so the key is not stable
across restarts as claimed. -/
theorem c1_identity_key :
    (∀ (hashFn : String → Nat) (n1 n2 line : String)
       (player position : Option String),
        (parse_transaction_line hashFn n1 line player position).map
            (fun r => r.transaction_id)
          = (parse_transaction_line hashFn n2 line player position).map
              (fun r => r.transaction_id)) ∧
    (parse_transaction_line (hashSalted 0) "T0" cLine (some "T.J. Watt") (some "LB")).map
        (fun r => r.transaction_id)
      ≠ (parse_transaction_line (hashSalted 1) "T0" cLine (some "T.J. Watt") (some "LB")).map
          (fun r => r.transaction_id) := by
  constructor
  · intro hashFn n1 n2 line player position
    unfold parse_transaction_line
    cases hd : findDateMatch line.data with
    | none => rfl
    | some g =>
      obtain ⟨m, dS, yS⟩ := g
      cases hs : findSubIdx (" - ".data) line.data with
      | none => rfl
      | some i =>
        cases player with
        | none => rfl
        | some p => rfl
  · decide

/-- C2 counterexample: `parse_transaction_line` emits records violating
the sentinel invariant — an omitted position becomes the empty string
(not `"Unknown"`), a blank player becomes `"Unknown Player"` (not
`"Unknown"`), a whitespace-only team name with an unmapped abbreviation
becomes the empty string, and a blank text after the dash leaves an empty
description. -/
theorem c2_sentinel_counterexample :
    (parse_transaction_line (hashSalted 0) "T0" cTeamEdgeLine (some "") none).map
        (fun r => (r.position, r.player, r.team))
      = some ("", "Unknown Player", "") ∧
    (parse_transaction_line (hashSalted 0) "T0" cEmptyDescLine (some "A") (some "QB")).map
        (fun r => r.description)
      = some "" := by
  constructor <;> decide

/-- C2 amended: every record emitted by `parse_transaction_line` has
non-empty `date`, `type`, `player` and `transaction_id`, `source` equal
to `"Spotrac"` and `scraped_at` equal to the processing timestamp; a
description without a team reference yields the team sentinel
`"Unknown"`; an omitted position yields the empty string (not
`"Unknown"`); `description` (and, in the whitespace edge case shown in
the counterexample, `team`) may be empty. -/
theorem c2_sentinel_amended :
    ∀ (hashFn : String → Nat) (nowIso line : String)
      (player position : Option String) (r : TransactionRecord),
      parse_transaction_line hashFn nowIso line player position = some r →
      r.date ≠ "" ∧ r.ttype ≠ "" ∧ r.player ≠ "" ∧ r.transaction_id ≠ "" ∧
      r.source = "Spotrac" ∧ r.scraped_at = nowIso ∧
      (findTeam r.description = none → r.team = "Unknown") ∧
      (position = none → r.position = "") := by
  intro hashFn nowIso line player position r h
  unfold parse_transaction_line at h
  cases hd : findDateMatch line.data with
  | none => rw [hd] at h; exact absurd h (by simp)
  | some g =>
    obtain ⟨m, dS, yS⟩ := g
    rw [hd] at h
    cases hs : findSubIdx (" - ".data) line.data with
    | none => rw [hs] at h; exact absurd h (by simp)
    | some i =>
      rw [hs] at h
      cases player with
      | none => exact absurd h (by simp)
      | some p =>
        simp only [Option.some.injEq] at h
        subst h
        refine ⟨fmtDateStr_ne_empty _ _ _, classify_transaction_ne_empty _, ?_,
                mkTransactionId_ne_empty _ _ _ _, rfl, rfl, ?_, ?_⟩
        · by_cases hp : p = "" <;> simp [hp]
        · intro ht
          exact teamFromDesc_of_none ht
        · intro hpos
          subst hpos
          rfl

/-- C2 witness: the amended invariant instantiated on the record parsed
from `"Jul 03, 2025 - Retired"` with player `"A B"` and no position. -/
theorem c2_sentinel_amended_witness :
    cRec.date ≠ "" ∧ cRec.ttype ≠ "" ∧ cRec.player ≠ "" ∧
    cRec.transaction_id ≠ "" ∧ cRec.source = "Spotrac" ∧
    cRec.scraped_at = "T0" ∧ cRec.team = "Unknown" ∧ cRec.position = "" := by
  have H := c2_sentinel_amended (hashSalted 0) "T0" "Jul 03, 2025 - Retired"
    (some "A B") none cRec (by decide)
  exact ⟨H.1, H.2.1, H.2.2.1, H.2.2.2.1, H.2.2.2.2.1, H.2.2.2.2.2.1,
         H.2.2.2.2.2.2.1 (by decide), H.2.2.2.2.2.2.2 rfl⟩

/-- C8: a line recognized by neither pattern leaves the scan state
unchanged and emits nothing (parsing skips it and continues); the parser
returns the empty record list, not an error, on pattern-free text; and a
fetched page with no recognizable content flows through
`get_daily_transactions` as a soft empty result. -/
theorem c8_parser_totality :
    (∀ (hashFn : String → Nat) (nowIso : String)
       (st : Option (String × String)) (line : String),
        playerLineMatch (pyStrip line) = none →
        dateDashGuardS (pyStrip line) = false →
        parseLineStep hashFn nowIso st line = (st, [])) ∧
    (∀ (hashFn : String → Nat) (nowIso : String),
        parse_text_patterns hashFn nowIso "hello world\nno patterns here" = []) ∧
    (∀ (hashFn : String → Nat) (nowIso : String) (nowMin : Nat)
       (date : Option String),
        get_daily_transactions hashFn nowIso nowMin netGarbagePage date
          = (1, Except.ok [])) := by
  refine ⟨?_, fun _ _ => rfl, fun _ _ _ _ => rfl⟩
  intro hashFn nowIso st line hp hg
  unfold parseLineStep
  by_cases hl : pyStrip line = ""
  · simp [hl]
  · simp only [hl, if_false, hp]
    cases st with
    | none => rfl
    | some pp =>
      obtain ⟨cp, cpos⟩ := pp
      simp [hg]

/-- C8 witness: the skip property instantiated on the line `"garbage"`
with a pending identity. -/
theorem c8_parser_totality_witness :
    parseLineStep (hashSalted 0) "T0" (some ("A", "QB")) "garbage"
      = (some ("A", "QB"), []) :=
  c8_parser_totality.1 (hashSalted 0) "T0" (some ("A", "QB")) "garbage"
    (by decide) (by decide)

/-- C9: the heuristic pairing state machine — a player-identity line
always installs itself as the pending identity, emitting nothing (so an
earlier pending identity is silently discarded); a non-identity line with
no pending identity emits nothing and leaves the state empty; and when a
pending identity pairs with a transaction-date line, the pending state is
cleared, so each identity binds at most one transaction line. -/
theorem c9_pairing_state_machine :
    (∀ (hashFn : String → Nat) (nowIso : String)
       (st : Option (String × String)) (line p pos : String),
        playerLineMatch (pyStrip line) = some (p, pos) →
        parseLineStep hashFn nowIso st line = (some (p, pos), [])) ∧
    (∀ (hashFn : String → Nat) (nowIso : String) (line : String),
        playerLineMatch (pyStrip line) = none →
        parseLineStep hashFn nowIso none line = (none, [])) ∧
    (∀ (hashFn : String → Nat) (nowIso : String) (p pos line : String),
        p ≠ "" →
        playerLineMatch (pyStrip line) = none →
        dateDashGuardS (pyStrip line) = true →
        (parseLineStep hashFn nowIso (some (p, pos)) line).1 = none) := by
  refine ⟨?_, ?_, ?_⟩
  · intro hashFn nowIso st line p pos hp
    unfold parseLineStep
    by_cases hl : pyStrip line = ""
    · rw [hl] at hp
      exact Option.noConfusion hp
    · simp [hl, hp]
  · intro hashFn nowIso line hp
    unfold parseLineStep
    by_cases hl : pyStrip line = ""
    · simp [hl]
    · simp [hl, hp]
  · intro hashFn nowIso p pos line hpne hp hg
    unfold parseLineStep
    by_cases hl : pyStrip line = ""
    · rw [hl] at hg
      exact absurd hg (by decide)
    · have hb : (p != "") = true := by simpa [bne_iff_ne] using hpne
      simp [hl, hp, hg, hb]

/-- C9 witness: the three transitions instantiated on concrete lines — a
player line installs the identity, a transaction line with no pending
identity emits nothing, and a pairing clears the pending identity. -/
theorem c9_pairing_state_machine_witness :
    parseLineStep (hashSalted 0) "T0" none "T.J. Watt (LB)"
      = (some ("T.J. Watt", "LB"), []) ∧
    parseLineStep (hashSalted 0) "T0" none "Jul 03, 2025 - Retired"
      = (none, []) ∧
    (parseLineStep (hashSalted 0) "T0" (some ("A", "QB")) "Jul 03, 2025 - Retired").1
      = none :=
  ⟨c9_pairing_state_machine.1 (hashSalted 0) "T0" none "T.J. Watt (LB)"
      "T.J. Watt" "LB" (by decide),
   c9_pairing_state_machine.2.1 (hashSalted 0) "T0" "Jul 03, 2025 - Retired"
      (by decide),
   c9_pairing_state_machine.2.2 (hashSalted 0) "T0" "A" "QB"
      "Jul 03, 2025 - Retired" (by decide) (by decide) (by decide)⟩

end NflTx
